import Mathlib

/-!
Verification of the OEE computation pipeline of the Shoes Production
Dashboard (`dash.py`).

The core of the program is `load_data`, which derives four columns —
Availability, Performance, Quality, OEE — from the raw spreadsheet rows,
clamps the three components to [0,1], and replaces an undefined (NaN) OEE
with 0.  The arithmetic is pandas/numpy floating point; the behaviours
that matter here are the special values produced by division:
`x / 0 = +inf` for `x > 0`, `-inf` for `x < 0`, and `NaN` for `0 / 0`,
the fact that `clip(0,1)` saturates infinities but leaves NaN in place,
that NaN propagates through multiplication, and that `fillna(0)` replaces
exactly NaN.  We model a float cell as a rational number extended with
`pinf`, `ninf` and `nan`, which captures these rules exactly for the
values this pipeline can produce.
-/

namespace Dash

/-- A pandas float cell: a finite rational, `+inf`, `-inf`, or `NaN`. -/
inductive EVal where
  | fin : ℚ → EVal
  | pinf : EVal
  | ninf : EVal
  | nan : EVal
deriving DecidableEq, Repr

/-- numpy float division: finite quotient when the denominator is nonzero;
`x / 0` is `+inf` for `x > 0`, `-inf` for `x < 0`, and `NaN` for `0 / 0`. -/
def fdiv (x y : ℚ) : EVal :=
  if y ≠ 0 then .fin (x / y)
  else if 0 < x then .pinf
  else if x < 0 then .ninf
  else .nan

/-- IEEE multiplication on extended values: NaN propagates; an infinity
times zero is NaN; otherwise signs combine as usual. -/
def EVal.mul : EVal → EVal → EVal
  | .nan, _ => .nan
  | _, .nan => .nan
  | .fin a, .fin b => .fin (a * b)
  | .fin a, .pinf => if 0 < a then .pinf else if a < 0 then .ninf else .nan
  | .fin a, .ninf => if 0 < a then .ninf else if a < 0 then .pinf else .nan
  | .pinf, .fin b => if 0 < b then .pinf else if b < 0 then .ninf else .nan
  | .ninf, .fin b => if 0 < b then .ninf else if b < 0 then .pinf else .nan
  | .pinf, .pinf => .pinf
  | .pinf, .ninf => .ninf
  | .ninf, .pinf => .ninf
  | .ninf, .ninf => .pinf

/-- pandas `Series.clip(0, 1)`: saturate finite values and infinities at
the bounds; NaN is left unchanged. -/
def EVal.clip01 : EVal → EVal
  | .fin q => .fin (min 1 (max 0 q))
  | .pinf => .fin 1
  | .ninf => .fin 0
  | .nan => .nan

/-- pandas `Series.fillna(d)`: replace NaN by `d`, keep everything else. -/
def EVal.fillna (d : ℚ) : EVal → EVal
  | .nan => .fin d
  | v => v

/-- pandas `series >= t` on one cell: NaN (and `-inf`) compare `False`. -/
def EVal.geQ (v : EVal) (t : ℚ) : Bool :=
  match v with
  | .fin q => t ≤ q
  | .pinf => true
  | .ninf => false
  | .nan => false

/-- One raw spreadsheet row of `AS2 5001.xlsx`, with the ten required
columns of the input schema. -/
structure Record where
  steps : String
  runningStatus : String
  currentLotNumber : String
  materialUsedKg : ℚ
  wasteMaterialsKg : ℚ
  currentLotRunTimeHours : ℚ
  expectedLotRunTimeHours : ℚ
  processDownTimeHours : ℚ
  failureRate : ℚ
  unitsProduced : ℕ
deriving DecidableEq, Repr

/-- A computed row: the raw record plus the four derived columns that
`load_data` attaches to the dataframe. -/
structure CRow where
  base : Record
  availability : EVal
  performance : EVal
  quality : EVal
  oee : EVal
deriving DecidableEq, Repr

/-- The per-row body of `load_data` (dash.py lines 15–25):
raw ratios, `clip(0, 1)` on the three components, product, and
`fillna(0)` on OEE only. -/
def computeMetrics (r : Record) : CRow :=
  let a := (fdiv r.currentLotRunTimeHours r.expectedLotRunTimeHours).clip01
  let p := (fdiv (r.expectedLotRunTimeHours - r.processDownTimeHours)
      r.expectedLotRunTimeHours).clip01
  let q := (EVal.fin (1 - r.failureRate)).clip01
  { base := r
    availability := a
    performance := p
    quality := q
    oee := ((a.mul p).mul q).fillna 0 }

/-- The metrics engine over the whole table: `load_data` computes each
derived column element-wise, i.e. the table map of `computeMetrics`. -/
def computeTable (rows : List Record) : List CRow :=
  rows.map computeMetrics

/-- Membership of a cell in the unit interval: the cell is a finite value
lying in `[0, 1]`.  NaN and the infinities are not in `[0, 1]`. -/
def inUnit (v : EVal) : Prop :=
  ∃ q, v = .fin q ∧ 0 ≤ q ∧ q ≤ 1

lemma EVal.nan_mul (v : EVal) : EVal.mul .nan v = .nan := by
  cases v <;> rfl

lemma EVal.mul_nan (v : EVal) : EVal.mul v .nan = .nan := by
  cases v <;> rfl

lemma clip01_unit_or_nan (v : EVal) :
    inUnit v.clip01 ∨ v.clip01 = .nan := by
  cases v with
  | fin q =>
      left
      refine ⟨min 1 (max 0 q), rfl, le_min (by norm_num) (le_max_left 0 q),
        min_le_left 1 _⟩
  | pinf => exact Or.inl ⟨1, rfl, by norm_num⟩
  | ninf => exact Or.inl ⟨0, rfl, by norm_num⟩
  | nan => exact Or.inr rfl

lemma quality_unit (r : Record) : inUnit (computeMetrics r).quality := by
  rcases clip01_unit_or_nan (EVal.fin (1 - r.failureRate)) with h | h
  · exact h
  · exact absurd h (by simp [EVal.clip01])

/-- Shared invariant: the OEE cell of every computed row is a finite
rational in `[0, 1]` — the product of clipped components is either finite
in `[0, 1]` or NaN, and `fillna(0)` turns the NaN case into `0`. -/
lemma oee_unit (r : Record) : inUnit (computeMetrics r).oee := by
  rcases quality_unit r with ⟨c, hc, hc0, hc1⟩
  simp only [computeMetrics] at hc ⊢
  set A := (fdiv r.currentLotRunTimeHours r.expectedLotRunTimeHours).clip01 with hA
  set P := (fdiv (r.expectedLotRunTimeHours - r.processDownTimeHours)
      r.expectedLotRunTimeHours).clip01 with hP
  rcases clip01_unit_or_nan (fdiv r.currentLotRunTimeHours
      r.expectedLotRunTimeHours) with ⟨a, ha, ha0, ha1⟩ | ha
  · rcases clip01_unit_or_nan (fdiv
        (r.expectedLotRunTimeHours - r.processDownTimeHours)
        r.expectedLotRunTimeHours) with ⟨p, hp, hp0, hp1⟩ | hp
    · rw [← hA] at ha
      rw [← hP] at hp
      rw [ha, hp, hc]
      refine ⟨a * p * c, rfl, ?_, ?_⟩
      · exact mul_nonneg (mul_nonneg ha0 hp0) hc0
      · exact mul_le_one₀ (mul_le_one₀ ha1 hp0 hp1) hc0 hc1
    · rw [← hP] at hp
      rw [hp, EVal.mul_nan, EVal.nan_mul]
      exact ⟨0, rfl, by norm_num⟩
  · rw [← hA] at ha
    rw [ha, EVal.nan_mul, EVal.nan_mul]
    exact ⟨0, rfl, by norm_num⟩

/-- The spec's worked example row: `currentLotRunTimeHours = 8`,
`expectedLotRunTimeHours = 10`, `processDownTimeHours = 1`,
`failureRate = 0.02`. -/
def recExample : Record :=
  { steps := "Cutting", runningStatus := "Running", currentLotNumber := "L1",
    materialUsedKg := 100, wasteMaterialsKg := 5,
    currentLotRunTimeHours := 8, expectedLotRunTimeHours := 10,
    processDownTimeHours := 1, failureRate := 2/100, unitsProduced := 50 }

/-- A pathological row with both run times zero: `0 / 0` is NaN. -/
def recZeroZero : Record :=
  { steps := "Stitching", runningStatus := "Stopped", currentLotNumber := "L2",
    materialUsedKg := 40, wasteMaterialsKg := 2,
    currentLotRunTimeHours := 0, expectedLotRunTimeHours := 0,
    processDownTimeHours := 0, failureRate := 0, unitsProduced := 0 }

/-- A pathological row with zero expected run time and negative downtime:
both ratios are `+inf`, clipped to 1. -/
def recNegDown : Record :=
  { steps := "Lasting", runningStatus := "Running", currentLotNumber := "L3",
    materialUsedKg := 30, wasteMaterialsKg := 1,
    currentLotRunTimeHours := 1, expectedLotRunTimeHours := 0,
    processDownTimeHours := -1, failureRate := 0, unitsProduced := 10 }

/-- A row with zero expected run time but nonnegative downtime. -/
def recZeroExp : Record :=
  { steps := "Sole Molding", runningStatus := "Stopped", currentLotNumber := "L4",
    materialUsedKg := 20, wasteMaterialsKg := 1,
    currentLotRunTimeHours := 5, expectedLotRunTimeHours := 0,
    processDownTimeHours := 2, failureRate := 1/10, unitsProduced := 4 }

/-- The spec's overrun row: `currentLotRunTimeHours = 12`,
`expectedLotRunTimeHours = 10`, raw availability `1.2`. -/
def recOverrun : Record :=
  { steps := "Assembly", runningStatus := "Running", currentLotNumber := "L5",
    materialUsedKg := 60, wasteMaterialsKg := 3,
    currentLotRunTimeHours := 12, expectedLotRunTimeHours := 10,
    processDownTimeHours := 0, failureRate := 0, unitsProduced := 80 }

/-- C1 counterexample: on a row with both run times zero, the derived
availability is NaN after clamping — `clip(0,1)` does not replace NaN and
`fillna(0)` is applied to the OEE column only — so the derived
availability does not lie in `[0,1]`, refuting the claim that all four
derived values do, unconditionally. -/
theorem unit_interval_counterexample :
    ¬ inUnit (computeMetrics recZeroZero).availability := by
  have h : (computeMetrics recZeroZero).availability = .nan := by
    simp [computeMetrics, fdiv, EVal.clip01, recZeroZero]
  rw [h]
  rintro ⟨q, hq, -, -⟩
  exact EVal.noConfusion hq

/-- C1 amended: quality and OEE lie in `[0,1]` for every record
unconditionally; availability and performance lie in `[0,1]` whenever
they are defined (not NaN) — they are NaN exactly on a `0 / 0` ratio,
and that NaN is not replaced. -/
theorem unit_interval_amended (r : Record) :
    inUnit (computeMetrics r).quality ∧ inUnit (computeMetrics r).oee ∧
    ((computeMetrics r).availability ≠ .nan →
      inUnit (computeMetrics r).availability) ∧
    ((computeMetrics r).performance ≠ .nan →
      inUnit (computeMetrics r).performance) := by
  refine ⟨quality_unit r, oee_unit r, ?_, ?_⟩
  · intro h
    rcases clip01_unit_or_nan (fdiv r.currentLotRunTimeHours
        r.expectedLotRunTimeHours) with hu | hn
    · exact hu
    · exact absurd hn h
  · intro h
    rcases clip01_unit_or_nan (fdiv
        (r.expectedLotRunTimeHours - r.processDownTimeHours)
        r.expectedLotRunTimeHours) with hu | hn
    · exact hu
    · exact absurd hn h

/-- C1 amended, witnessed at the spec's worked example row. -/
theorem unit_interval_amended_witness :
    inUnit (computeMetrics recExample).availability ∧
    inUnit (computeMetrics recExample).oee :=
  ⟨(unit_interval_amended recExample).2.2.1
      (by simp [computeMetrics, fdiv, EVal.clip01, recExample]),
    (unit_interval_amended recExample).2.1⟩

/-- C2 counterexample: a row with zero expected run time but negative
downtime has both raw ratios `+inf`, each clipped to 1, so its OEE is 1,
not 0 — the claim "OEE = 0 whenever expected run time is 0, regardless of
the other fields" fails. -/
theorem oee_zero_expected_counterexample :
    recNegDown.expectedLotRunTimeHours = 0 ∧
    (computeMetrics recNegDown).oee ≠ .fin 0 := by
  refine ⟨rfl, ?_⟩
  have h : (computeMetrics recNegDown).oee = .fin 1 := by
    simp [computeMetrics, fdiv, EVal.clip01, EVal.mul, EVal.fillna, recNegDown]
  rw [h]
  simp

/-- C2 amended: on a row with zero expected run time and nonnegative
downtime the computed OEE is the defined value 0 (for any current run
time and failure rate); and whenever all three components are defined,
OEE is exactly their product. -/
theorem oee_spec_amended (r : Record) :
    (r.expectedLotRunTimeHours = 0 → 0 ≤ r.processDownTimeHours →
      (computeMetrics r).oee = .fin 0) ∧
    (∀ a p q, (computeMetrics r).availability = .fin a →
      (computeMetrics r).performance = .fin p →
      (computeMetrics r).quality = .fin q →
      (computeMetrics r).oee = .fin (a * p * q)) := by
  constructor
  · intro hexp hdown
    simp only [computeMetrics]
    rcases eq_or_lt_of_le hdown with hd | hd
    · have hP : fdiv (r.expectedLotRunTimeHours - r.processDownTimeHours)
          r.expectedLotRunTimeHours = .nan := by
        simp [fdiv, hexp, ← hd]
      rw [hP]
      simp [EVal.clip01, EVal.mul_nan, EVal.nan_mul, EVal.fillna]
    · have h1 : ¬ (0:ℚ) < r.expectedLotRunTimeHours - r.processDownTimeHours := by
        rw [hexp]; linarith
      have h2 : r.expectedLotRunTimeHours - r.processDownTimeHours < 0 := by
        rw [hexp]; linarith
      have hP : fdiv (r.expectedLotRunTimeHours - r.processDownTimeHours)
          r.expectedLotRunTimeHours = .ninf := by
        simp [fdiv, hexp, h1, h2, hd, hd.asymm]
      rw [hP]
      rcases clip01_unit_or_nan (fdiv r.currentLotRunTimeHours
          r.expectedLotRunTimeHours) with ⟨a, ha, -, -⟩ | ha
      · rw [ha]
        simp [EVal.clip01, EVal.mul, EVal.fillna]
      · rw [ha]
        simp [EVal.clip01, EVal.nan_mul, EVal.fillna]
  · intro a p q ha hp hq
    simp only [computeMetrics] at ha hp hq ⊢
    rw [ha, hp, hq]
    rfl

/-- C2 amended, witnessed: zero expected run time with downtime 2 gives
OEE exactly 0. -/
theorem oee_spec_amended_witness :
    recZeroExp.expectedLotRunTimeHours = 0 ∧
    0 ≤ recZeroExp.processDownTimeHours ∧
    (computeMetrics recZeroExp).oee = .fin 0 :=
  ⟨rfl, by norm_num [recZeroExp],
    (oee_spec_amended recZeroExp).1 rfl (by norm_num [recZeroExp])⟩

/-- C8: the clamp used on availability, performance and quality saturates
— a finite raw value below 0 clips to 0 and above 1 clips to 1 — and on
the overrun row the raw availability `12/10 = 1.2` is clamped to exactly
1. -/
theorem clamp_saturation :
    (∀ x : ℚ, x < 0 → EVal.clip01 (.fin x) = .fin 0) ∧
    (∀ x : ℚ, 1 < x → EVal.clip01 (.fin x) = .fin 1) ∧
    fdiv recOverrun.currentLotRunTimeHours recOverrun.expectedLotRunTimeHours
      = .fin (12/10) ∧
    (computeMetrics recOverrun).availability = .fin 1 := by
  refine ⟨?_, ?_, ?_, ?_⟩
  · intro x hx
    simp only [EVal.clip01, EVal.fin.injEq]
    rw [max_eq_left hx.le]
    exact min_eq_right (by norm_num)
  · intro x hx
    simp only [EVal.clip01, EVal.fin.injEq]
    rw [max_eq_right (by linarith : (0:ℚ) ≤ x)]
    exact min_eq_left hx.le
  · norm_num [fdiv, recOverrun]
  · simp [computeMetrics, fdiv, EVal.clip01, recOverrun]
    norm_num

/-- C8 witnessed at concrete raw values `-1/2` and `6/5`. -/
theorem clamp_saturation_witness :
    EVal.clip01 (.fin (-1/2 : ℚ)) = .fin 0 ∧
    EVal.clip01 (.fin (6/5 : ℚ)) = .fin 1 :=
  ⟨clamp_saturation.1 _ (by norm_num), clamp_saturation.2.1 _ (by norm_num)⟩

/-- C9: on the spec's worked example row (`8, 10, 1, 0.02`) the derived
values are exactly `0.8`, `0.9`, `0.98` and `0.7056`. -/
theorem example_record_metrics :
    (computeMetrics recExample).availability = .fin (8/10) ∧
    (computeMetrics recExample).performance = .fin (9/10) ∧
    (computeMetrics recExample).quality = .fin (98/100) ∧
    (computeMetrics recExample).oee = .fin (7056/10000) := by
  refine ⟨?_, ?_, ?_, ?_⟩ <;>
    · simp [computeMetrics, fdiv, EVal.clip01, EVal.mul, EVal.fillna, recExample]
      norm_num

/-- `Series.unique()` (line 317): the distinct values of a column in order
of first appearance. -/
def seriesUnique (xs : List String) : List String :=
  xs.foldl (fun acc x => if x ∈ acc then acc else acc ++ [x]) []

/-- `df['Running Status'].unique()` over a computed table. -/
def uniqueStatuses (rows : List CRow) : List String :=
  seriesUnique (rows.map fun r => r.base.runningStatus)

/-- The filter at lines 332–335: keep a row iff its Running Status is in
the selected set and its OEE is at least the threshold (pandas `isin`
and `>=`). -/
def filtered_df (rows : List CRow) (statusFilter : List String)
    (oeeThreshold : ℚ) : List CRow :=
  rows.filter fun r =>
    statusFilter.contains r.base.runningStatus && r.oee.geQ oeeThreshold

lemma mem_seriesUnique_aux (xs : List String) (acc : List String) (x : String)
    (h : x ∈ acc ∨ x ∈ xs) :
    x ∈ xs.foldl (fun a y => if y ∈ a then a else a ++ [y]) acc := by
  induction xs generalizing acc with
  | nil => simpa using h.resolve_right (by simp)
  | cons y ys ih =>
      simp only [List.foldl_cons]
      apply ih
      by_cases hy : y ∈ acc
      · rw [if_pos hy]
        rcases h with h | h
        · exact Or.inl h
        · rcases List.mem_cons.mp h with rfl | h
          · exact Or.inl hy
          · exact Or.inr h
      · rw [if_neg hy]
        rcases h with h | h
        · exact Or.inl (List.mem_append_left _ h)
        · rcases List.mem_cons.mp h with rfl | h
          · exact Or.inl (List.mem_append_right _ (List.mem_singleton_self x))
          · exact Or.inr h

lemma mem_seriesUnique (xs : List String) (x : String) (h : x ∈ xs) :
    x ∈ seriesUnique xs :=
  mem_seriesUnique_aux xs [] x (Or.inr h)

/-- C3: filtering the computed table by the full set of distinct Running
Status values and OEE threshold 0 returns the table unchanged — every
row's status is in the full set and every computed OEE is a finite value
`≥ 0`. -/
theorem filter_full_set_identity (rows : List Record) :
    filtered_df (computeTable rows) (uniqueStatuses (computeTable rows)) 0
      = computeTable rows := by
  apply List.filter_eq_self.mpr
  intro r hr
  rw [Bool.and_eq_true]
  constructor
  · have hmem : r.base.runningStatus ∈ uniqueStatuses (computeTable rows) :=
      mem_seriesUnique _ _ (List.mem_map_of_mem _ hr)
    simpa using hmem
  · rcases List.mem_map.mp hr with ⟨orig, -, rfl⟩
    rcases oee_unit orig with ⟨q, hq, h0, -⟩
    rw [hq]
    simpa [EVal.geQ] using h0

/-- pandas `Series.mean()`: NaN on an empty column, otherwise the sum of
the (defined) entries over their count. -/
def seriesMean (xs : List ℚ) : EVal :=
  if xs.length = 0 then .nan else .fin (xs.sum / xs.length)

/-- pandas `Series.min()`: NaN on an empty column, otherwise the least
defined entry. -/
def seriesMin (xs : List ℚ) : EVal :=
  match xs with
  | [] => .nan
  | x :: rest => .fin (rest.foldl min x)

/-- pandas `Series.max()`: NaN on an empty column, otherwise the greatest
defined entry. -/
def seriesMax (xs : List ℚ) : EVal :=
  match xs with
  | [] => .nan
  | x :: rest => .fin (rest.foldl max x)

/-- The OEE column restricted to its defined (non-NaN) entries; pandas
aggregations skip NaN. -/
def oeeVals (rows : List CRow) : List ℚ :=
  rows.filterMap fun r =>
    match r.oee with
    | .fin q => some q
    | _ => none

/-- `filtered_df['OEE'].idxmax()` then `.loc[..., 'Steps']` (line 376):
the first row attaining the maximum OEE. -/
def idxmaxRow (rows : List CRow) : Option CRow :=
  match seriesMax (oeeVals rows) with
  | .fin m => rows.find? fun r => r.oee == .fin m
  | _ => none

/-- `filtered_df['OEE'].idxmin()` then `.loc[..., 'Steps']` (line 377):
the first row attaining the minimum OEE. -/
def idxminRow (rows : List CRow) : Option CRow :=
  match seriesMin (oeeVals rows) with
  | .fin m => rows.find? fun r => r.oee == .fin m
  | _ => none

/-- The aggregates displayed by the summary block (lines 361–381). -/
structure Summary where
  totalSteps : ℕ
  avgOEE : EVal
  totalUnits : ℕ
  totalMaterial : ℚ
  minOEE : EVal
  maxOEE : EVal
  bestStep : Option String
  worstStep : Option String
deriving DecidableEq, Repr

/-- The summary block at lines 361–381: the aggregates are computed only
under the `len(filtered_df) > 0` guard; the empty subset renders the
explicit "no steps match" message instead of any numbers. -/
def summaryStats (rows : List CRow) : Option Summary :=
  if 0 < rows.length then
    some { totalSteps := rows.length
           avgOEE := seriesMean (oeeVals rows)
           totalUnits := (rows.map fun r => r.base.unitsProduced).sum
           totalMaterial := (rows.map fun r => r.base.materialUsedKg).sum
           minOEE := seriesMin (oeeVals rows)
           maxOEE := seriesMax (oeeVals rows)
           bestStep := (idxmaxRow rows).map fun r => r.base.steps
           worstStep := (idxminRow rows).map fun r => r.base.steps }
  else none

/-- C4: the summary over an empty filtered subset is the explicit
`none` ("no data") state — never a numeric default — and over any
nonempty subset it is a defined `some` summary. -/
theorem summary_empty_no_data :
    (∀ rows : List CRow, rows = [] → summaryStats rows = none) ∧
    (∀ rows : List CRow, rows ≠ [] → ∃ s, summaryStats rows = some s) := by
  constructor
  · rintro rows rfl
    rfl
  · intro rows h
    unfold summaryStats
    rw [if_pos (List.length_pos.mpr h)]
    exact ⟨_, rfl⟩

/-- C4 witnessed on the empty subset and on a one-row subset. -/
theorem summary_empty_no_data_witness :
    summaryStats [] = none ∧
    ∃ s, summaryStats [computeMetrics recExample] = some s :=
  ⟨summary_empty_no_data.1 [] rfl,
    summary_empty_no_data.2 [computeMetrics recExample] (by simp)⟩

/-- The ten column names `load_data` accesses on the spreadsheet
(lines 15–17 and 30–39). -/
def requiredColumns : List String :=
  ["Steps", "Running Status", "Current lot Number", "Material Used (KG)",
    "Waste Materials (KG)", "Current Lot Run Time (Hours)",
    "Expected Lot Run Time (Hours)", "Process Down time", "Failure Rate",
    "Units produced"]

/-- The raw spreadsheet as read by `pd.read_excel`: which column names are
present, and the row data. -/
structure RawTable where
  cols : List String
  rows : List Record

/-- `load_data` (lines 11–46): every required column is accessed by name,
so a missing column raises `KeyError` and aborts the whole load with no
table; the successful path returns the computed table. -/
def load_data (t : RawTable) : Except String (List CRow) :=
  if requiredColumns.all (fun c => t.cols.contains c) then
    .ok (computeTable t.rows)
  else
    .error "KeyError"

/-- C5: a source missing any required column fails as a whole: the load
returns the fatal error and there is no output table, partial or
otherwise. -/
theorem load_missing_column_fatal (t : RawTable) (c : String)
    (hc : c ∈ requiredColumns) (hmiss : c ∉ t.cols) :
    load_data t = .error "KeyError" ∧ ∀ out, load_data t ≠ .ok out := by
  have hall : requiredColumns.all (fun c => t.cols.contains c) = false := by
    rw [List.all_eq_false]
    exact ⟨c, hc, by simpa using hmiss⟩
  constructor
  · unfold load_data
    rw [hall]
    rfl
  · intro out hout
    unfold load_data at hout
    rw [hall] at hout
    exact Except.noConfusion hout

/-- A raw table missing the `Steps` column. -/
def rawMissingSteps : RawTable :=
  { cols := ["Running Status", "Current lot Number", "Material Used (KG)",
      "Waste Materials (KG)", "Current Lot Run Time (Hours)",
      "Expected Lot Run Time (Hours)", "Process Down time", "Failure Rate",
      "Units produced"]
    rows := [recExample] }

/-- C5 witnessed: a table without the `Steps` column loads to the fatal
error. -/
theorem load_missing_column_fatal_witness :
    "Steps" ∈ requiredColumns ∧ "Steps" ∉ rawMissingSteps.cols ∧
    load_data rawMissingSteps = .error "KeyError" :=
  ⟨by simp [requiredColumns], by simp [rawMissingSteps],
    (load_missing_column_fatal rawMissingSteps "Steps"
      (by simp [requiredColumns]) (by simp [rawMissingSteps])).1⟩

/-- Row lookup by step (line 246): filter the rows whose Steps column
equals the selection and take the first (`.iloc[0]`). -/
def step_data (rows : List CRow) (s : String) : Option CRow :=
  (rows.filter fun r => r.base.steps == s).head?

/-- C6: when a row with the requested step exists, the lookup returns
exactly that single record — the first one in table order whose step
matches; duplicates later in the table are ignored (first wins). -/
theorem step_data_first_wins (l1 l2 : List CRow) (r : CRow) (s : String)
    (hr : r.base.steps = s) (hl1 : ∀ x ∈ l1, x.base.steps ≠ s) :
    step_data (l1 ++ r :: l2) s = some r := by
  unfold step_data
  rw [List.filter_append]
  have h1 : l1.filter (fun x => x.base.steps == s) = [] := by
    rw [List.filter_eq_nil_iff]
    intro x hx
    simpa using hl1 x hx
  rw [h1, List.nil_append, List.filter_cons]
  simp [hr]

/-- Two distinct raw rows sharing the step name "Finishing". -/
def recDupFirst : Record :=
  { steps := "Finishing", runningStatus := "Running", currentLotNumber := "L6",
    materialUsedKg := 10, wasteMaterialsKg := 1,
    currentLotRunTimeHours := 5, expectedLotRunTimeHours := 10,
    processDownTimeHours := 0, failureRate := 0, unitsProduced := 30 }

/-- The later duplicate of the step name "Finishing". -/
def recDupSecond : Record :=
  { steps := "Finishing", runningStatus := "Stopped", currentLotNumber := "L7",
    materialUsedKg := 11, wasteMaterialsKg := 2,
    currentLotRunTimeHours := 6, expectedLotRunTimeHours := 10,
    processDownTimeHours := 1, failureRate := 0, unitsProduced := 20 }

/-- C6 witnessed: with two rows named "Finishing", lookup returns the
first. -/
theorem step_data_first_wins_witness :
    step_data [computeMetrics recExample, computeMetrics recDupFirst,
      computeMetrics recDupSecond] "Finishing"
      = some (computeMetrics recDupFirst) :=
  step_data_first_wins [computeMetrics recExample]
    [computeMetrics recDupSecond] (computeMetrics recDupFirst) "Finishing"
    rfl
    (by
      intro x hx
      rcases List.mem_singleton.mp hx with rfl
      simp [computeMetrics, recExample])

/-- C7: the metrics computation is a per-row transform — the output row at
index `i` depends only on the input row at index `i`, so two tables that
agree at `i` agree on all derived values at `i`; and evaluating the rows
in reverse order produces the identical table. -/
theorem computeTable_rowwise :
    (∀ t1 t2 : List Record, ∀ i : ℕ, t1[i]? = t2[i]? →
      (computeTable t1)[i]? = (computeTable t2)[i]?) ∧
    (∀ t : List Record, (t.reverse.map computeMetrics).reverse
      = computeTable t) := by
  constructor
  · intro t1 t2 i h
    simp only [computeTable, List.getElem?_map, h]
  · intro t
    simp [computeTable, List.map_reverse]

/-- C7 witnessed on two tables agreeing at index 0. -/
theorem computeTable_rowwise_witness :
    (computeTable [recExample])[0]? = (computeTable [recExample, recOverrun])[0]? :=
  computeTable_rowwise.1 [recExample] [recExample, recOverrun] 0 (by simp)

/-- Sum of the Material Used column (line 68). -/
def total_material_used (rows : List CRow) : ℚ :=
  (rows.map fun r => r.base.materialUsedKg).sum

/-- Sum of the Waste Materials column (line 69). -/
def total_waste (rows : List CRow) : ℚ :=
  (rows.map fun r => r.base.wasteMaterialsKg).sum

/-- Line 70: `(total_waste / total_material_used) * 100 if
total_material_used > 0 else 0`. -/
def waste_percentage (rows : List CRow) : ℚ :=
  if 0 < total_material_used rows then
    total_waste rows / total_material_used rows * 100
  else 0

/-- C10: the overall waste percentage is total-division guarded: when the
material total is strictly positive it is the waste/material ratio times
100 (stated multiplicatively, so no division appears), and otherwise it
is 0. -/
theorem waste_percentage_guarded (rows : List CRow) :
    (0 < total_material_used rows →
      waste_percentage rows * total_material_used rows
        = total_waste rows * 100) ∧
    (¬ 0 < total_material_used rows → waste_percentage rows = 0) := by
  constructor
  · intro h
    have h0 : total_material_used rows ≠ 0 := ne_of_gt h
    unfold waste_percentage
    rw [if_pos h]
    field_simp
  · intro h
    unfold waste_percentage
    rw [if_neg h]

/-- C10 witnessed on a one-row table with 100 kg used and 5 kg wasted. -/
theorem waste_percentage_guarded_witness :
    0 < total_material_used (computeTable [recExample]) ∧
    waste_percentage (computeTable [recExample]) *
      total_material_used (computeTable [recExample])
      = total_waste (computeTable [recExample]) * 100 :=
  ⟨by norm_num [total_material_used, computeTable, computeMetrics, recExample],
    (waste_percentage_guarded (computeTable [recExample])).1
      (by norm_num [total_material_used, computeTable, computeMetrics,
        recExample])⟩

end Dash
